import Mathlib

/-!
Shallow embedding of the forwarder module of the serverless-plugin-datadog
repository (src/forwarder.ts): the subscription decision engine, the
subscription quota enforcer, the config interpreter, the execution log group
synthesizer and the naming transform, together with theorems checking the
natural-language specification against this code.

JavaScript objects of unconstrained shape (the raw `service.provider.logs`
value inspected by `isLogsConfig` and the enablement helpers) are embedded as
the inductive `JSVal`; the remote AWS collaborator (`aws.request`) is embedded
as explicit data (`AwsModel`), and in-place mutation of the CloudFormation
resource map is embedded as explicit state passing over an association list
(`Graph`) whose update function `setKey` mirrors JavaScript property
assignment (replace in place when present, append otherwise).
-/

namespace DatadogForwarder

/-- A JavaScript value, as far as the forwarder module inspects one: the raw
`service.provider.logs` value can be `undefined`, a boolean, a number, a
string, or a plain object (association list of fields, keys unique).  `null`,
arrays and functions never reach this code path and are not modelled. -/
inductive JSVal where
  | undefined : JSVal
  | bool (b : Bool) : JSVal
  | num (n : Int) : JSVal
  | str (s : String) : JSVal
  | obj (fields : List (String × JSVal)) : JSVal

/-- JavaScript `typeof` on the modelled values. -/
def jsTypeof : JSVal → String
  | .undefined => "undefined"
  | .bool _ => "boolean"
  | .num _ => "number"
  | .str _ => "string"
  | .obj _ => "object"

/-- Field lookup in an object's field list (first match). -/
def lookupField : List (String × JSVal) → String → Option JSVal
  | [], _ => none
  | (k1, v1) :: rest, k => if k1 = k then some v1 else lookupField rest k

/-- JavaScript property access with optional chaining (`obj?.k`): `undefined`
on non-objects and on absent fields. -/
def optGet (v : JSVal) (k : String) : JSVal :=
  match v with
  | .obj fields => (lookupField fields k).getD .undefined
  | _ => .undefined

/-- JavaScript `obj.hasOwnProperty(k)` on the modelled values (only ever
called on values whose `typeof` is `"object"`). -/
def hasOwn (v : JSVal) (k : String) : Bool :=
  match v with
  | .obj fields => (lookupField fields k).isSome
  | _ => false

/-- JavaScript strict equality `v === true`. -/
def strictEqTrue : JSVal → Bool
  | .bool true => true
  | _ => false

/-- JavaScript strict equality `v === false`. -/
def strictEqFalse : JSVal → Bool
  | .bool false => true
  | _ => false

/-- `isSubLogsConfig` of the source.  Note the source's second comparison,
`typeof obj.accessLogging !== undefined`, compares a string with the value
`undefined` and is therefore always true, so only the `"boolean"` test is
effective; the embedding keeps the effective test. -/
def isSubLogsConfig (obj : JSVal) : Bool :=
  if jsTypeof obj = "boolean" then true
  else if jsTypeof obj ≠ "object" then false
  else if hasOwn obj "accessLogging" && !(jsTypeof (optGet obj "accessLogging") = "boolean") then false
  else if hasOwn obj "executionLogging" && !(jsTypeof (optGet obj "executionLogging") = "boolean") then false
  else true

/-- `isLogsConfig` of the source: the shape guard for the raw logging
configuration. -/
def isLogsConfig (obj : JSVal) : Bool :=
  if jsTypeof obj ≠ "object" then false
  else if hasOwn obj "restApi" && !isSubLogsConfig (optGet obj "restApi") then false
  else if hasOwn obj "httpApi" && !isSubLogsConfig (optGet obj "httpApi") then false
  else if hasOwn obj "websocket" && !isSubLogsConfig (optGet obj "websocket") then false
  else true

/-- `restAccessLoggingIsEnabled` of the source. -/
def restAccessLoggingIsEnabled (obj : JSVal) : Bool :=
  if strictEqFalse (optGet obj "restApi") then false
  else strictEqTrue (optGet obj "restApi") || strictEqTrue (optGet (optGet obj "restApi") "accessLogging")

/-- `restExecutionLoggingIsEnabled` of the source. -/
def restExecutionLoggingIsEnabled (obj : JSVal) : Bool :=
  if strictEqFalse (optGet obj "restApi") then false
  else strictEqTrue (optGet obj "restApi") || strictEqTrue (optGet (optGet obj "restApi") "executionLogging")

/-- `httpAccessLoggingIsEnabled` of the source. -/
def httpAccessLoggingIsEnabled (obj : JSVal) : Bool :=
  if strictEqFalse (optGet obj "httpApi") then false
  else strictEqTrue (optGet obj "httpApi") || strictEqTrue (optGet (optGet obj "httpApi") "accessLogging")

/-- `websocketAccessLoggingIsEnabled` of the source. -/
def websocketAccessLoggingIsEnabled (obj : JSVal) : Bool :=
  if strictEqFalse (optGet obj "websocket") then false
  else strictEqTrue (optGet obj "websocket") || strictEqTrue (optGet (optGet obj "websocket") "accessLogging")

/-- `websocketExecutionLoggingIsEnabled` of the source. -/
def websocketExecutionLoggingIsEnabled (obj : JSVal) : Bool :=
  if strictEqFalse (optGet obj "websocket") then false
  else strictEqTrue (optGet obj "websocket") || strictEqTrue (optGet (optGet obj "websocket") "executionLogging")

/-- Replace every occurrence of the character `c` in `s` by `replacement`:
the JavaScript `s.replace(/c/g, replacement)` with a single-character global
pattern, written over the character list so that it evaluates by kernel
reduction. -/
def replaceChar (s : List Char) (c : Char) (replacement : List Char) : List Char :=
  (s.map (fun ch => if ch = c then replacement else [ch])).flatten

/-- `getLogGroupLogicalId` of the source: uppercase the first character,
replace every `-` with `Dash` and every `_` with `Underscore`, append
`LogGroup`; the empty (falsy) name maps to the empty string. -/
def getLogGroupLogicalId (functionName : String) : String :=
  match functionName.data with
  | [] => ""
  | first :: rest =>
    let upperCasedFunctionName := first.toUpper :: rest
    let normalizedFunctionName :=
      replaceChar (replaceChar upperCasedFunctionName '-' "Dash".data) '_' "Underscore".data
    String.mk (normalizedFunctionName ++ "LogGroup".data)

/-- JavaScript `s.startsWith(p)`, over the character lists. -/
def strStartsWith (s p : String) : Bool :=
  p.data.isPrefixOf s.data

/-- `const maxAllowableLogGroupSubscriptions: number = 2` of the source. -/
def maxAllowableLogGroupSubscriptions : Nat := 2

/-- `REST_EXECUTION_LOG_GROUP_KEY` of the source. -/
def REST_EXECUTION_LOG_GROUP_KEY : String := "RestExecutionLogGroup"

/-- `REST_EXECUTION_SUBSCRIPTION_KEY` of the source. -/
def REST_EXECUTION_SUBSCRIPTION_KEY : String := "RestExecutionLogGroupSubscription"

/-- `WEBSOCKETS_EXECUTION_LOG_GROUP_KEY` of the source. -/
def WEBSOCKETS_EXECUTION_LOG_GROUP_KEY : String := "WebsocketsExecutionLogGroup"

/-- `WEBSOCKETS_EXECUTION_SUBCRIPTION_KEY` of the source (its spelling). -/
def WEBSOCKETS_EXECUTION_SUBCRIPTION_KEY : String := "WebsocketsExecutionLogGroupSubscription"

/-- A forwarder destination: a literal ARN string, or a
`CloudFormationObjectArn` (an object with optional `Fn::Sub` and `arn:aws`
fields) when the user defines the ARN with a CloudFormation function. -/
inductive Arn where
  | str (s : String)
  | cfObject (fnSub : Option String) (arnAws : Option String)
  deriving DecidableEq

/-- One part of a CloudFormation `Fn::Join` list: a literal string or a
`{ Ref: ... }`. -/
inductive JoinPart where
  | lit (s : String)
  | ref (r : String)
  deriving DecidableEq

/-- A `LogGroupName` property value: a literal string, or the intrinsic
`Fn::Join` expression built by the execution log group synthesizer. -/
inductive LGName where
  | lit (s : String)
  | fnJoin (sep : String) (parts : List JoinPart)
  deriving DecidableEq

/-- A CloudFormation resource, as far as this module inspects or creates one:
a log group (`Type: "AWS::Logs::LogGroup"`, with its `LogGroupName`), a
subscription filter (`Type: "AWS::Logs::SubscriptionFilter"`, with
`DestinationArn`, `FilterPattern` and `LogGroupName: { Ref: logGroupRef }`),
or a resource of any other `Type` (kept opaque). -/
inductive Resource where
  | logGroup (logGroupName : LGName)
  | subscriptionFilter (destinationArn : Arn) (filterPattern : String) (logGroupRef : String)
  | other (resourceType : String)
  deriving DecidableEq

/-- `isLogGroup` of the source: `value.Type === "AWS::Logs::LogGroup"`. -/
def isLogGroup : Resource → Bool
  | .logGroup _ => true
  | _ => false

/-- The `LogGroupName` property when it is a literal string
(`typeof resource.Properties.LogGroupName === "string"`). -/
def lgNameLit : Resource → Option String
  | .logGroup (.lit s) => some s
  | _ => none

/-- The compiled CloudFormation template's `Resources` map: logical id to
resource, in insertion order (JavaScript object iteration order for string
keys). -/
abbrev Graph := List (String × Resource)

/-- JavaScript property assignment `resources[k] = v`: replace the value in
place when the key is present, append the pair otherwise. -/
def setKey : Graph → String → Resource → Graph
  | [], k, v => [(k, v)]
  | (k1, v1) :: rest, k, v =>
    if k1 = k then (k, v) :: rest else (k1, v1) :: setKey rest k v

/-- Property read `resources[k]` (as an `Option`). -/
def getKey : Graph → String → Option Resource
  | [], _ => none
  | (k1, v1) :: rest, k => if k1 = k then some v1 else getKey rest k

/-- A `FunctionInfo` handler record; the forwarder module only reads its
`name`. -/
structure FunctionInfo where
  name : String
  deriving DecidableEq

/-- `ForwarderConfigs` of the source. -/
structure ForwarderConfigs where
  AddExtension : Bool
  IntegrationTesting : Option Bool
  SubToAccessLogGroups : Bool
  SubToExecutionLogGroups : Bool
  deriving DecidableEq

/-- One subscription filter descriptor as reported by the log service
(`DescribeSubscriptionFiltersResponse`). -/
structure SubscriptionFilterDesc where
  creationTime : Nat
  destinationArn : String
  distribution : String
  filterName : String
  filterPattern : String
  logGroupName : String
  roleArn : String
  deriving DecidableEq

/-- `DescribeSubscriptionFiltersResponse` of the source. -/
structure DescribeSubscriptionFiltersResponse where
  subscriptionFilters : List SubscriptionFilterDesc
  deriving DecidableEq

/-- The `aws` collaborator (`aws.request`, `aws.getStage()`,
`aws.naming.getStackName()`): `getFunctionOk` is whether the
`Lambda.getFunction` request succeeds, `describeSubs` the outcome of the
`CloudWatchLogs.describeSubscriptionFilters` request per log group name
(`.error` for a rejected request).  `getStackName()` returns a string; the
source only tests its truthiness, which for a string means non-emptiness. -/
structure AwsModel where
  getFunctionOk : Bool
  describeSubs : String → Except String DescribeSubscriptionFiltersResponse
  stage : String
  stackName : String

/-- The `service` collaborator: `service.getServiceName()`, the raw
`service.provider.logs` value, and
`service.provider.compiledCloudFormationTemplate?.Resources` (`none` when the
template or its `Resources` is undefined). -/
structure ServiceModel where
  serviceName : String
  logs : JSVal
  resources : Option Graph

/-- The typed error `DatadogForwarderNotFoundError` of the source. -/
structure DatadogForwarderNotFoundError where
  message : String
  deriving DecidableEq

/-- One remote request issued during a run (recorded so that theorems can
speak about which remote calls a run performs). -/
inductive RemoteCall where
  | getFunction (arn : Arn)
  | describeSubscriptionFiltersFor (logGroupName : String)
  deriving DecidableEq

/-- The observable outcome of a successful
`addCloudWatchForwarderSubscriptions` run: the `Resources` map after the
in-place mutations, the returned warning list (`errors` in the source), and
the remote calls issued. -/
structure EngineRun where
  resources : Option Graph
  warnings : List String
  calls : List RemoteCall
  deriving DecidableEq

/-- JavaScript template-literal interpolation of a forwarder destination: a
string interpolates as itself, an object as `[object Object]`. -/
def arnToString : Arn → String
  | .str s => s
  | .cfObject _ _ => "[object Object]"

/-- `validateForwarderArn` of the source: one `Lambda.getFunction` request;
on failure, throw `DatadogForwarderNotFoundError` (the request failure itself
is caught, the typed error is not). -/
def validateForwarderArn (aws : AwsModel) (functionArn : Arn) :
    Except DatadogForwarderNotFoundError Unit :=
  if aws.getFunctionOk then .ok ()
  else .error ⟨"Could not perform GetFunction on " ++ arnToString functionArn ++ "."⟩

/-- `describeSubscriptionFilters` of the source: query the log service; any
failure is swallowed and treated as the empty list. -/
def describeSubscriptionFilters (aws : AwsModel) (logGroupName : String) :
    List SubscriptionFilterDesc :=
  match aws.describeSubs logGroupName with
  | .ok result => result.subscriptionFilters
  | .error _ => []

/-- `canSubscribeLogGroup` of the source: reject exactly when no existing
filter name starts with the expected subscription name and the number of
existing filters is at or above the fixed quota of two. -/
def canSubscribeLogGroup (aws : AwsModel) (logGroupName expectedSubName : String) : Bool :=
  let subscriptionFilters := describeSubscriptionFilters aws logGroupName
  let numberOfActiveSubscriptionFilters := subscriptionFilters.length
  let foundDatadogSubscriptionFilter :=
    subscriptionFilters.foldl
      (fun found subscription =>
        if strStartsWith subscription.filterName expectedSubName then true else found)
      false
  if foundDatadogSubscriptionFilter = false ∧
      maxAllowableLogGroupSubscriptions ≤ numberOfActiveSubscriptionFilters then
    false
  else
    true

/-- `validateRestApiSubscription` of the source; `logGroupName` is the
resource's `LogGroupName`, a string whenever this helper is reached. -/
def validateRestApiSubscription (logGroupName : String) (subscribe : Bool)
    (extendedProvider : JSVal) : Bool :=
  restAccessLoggingIsEnabled extendedProvider
    && strStartsWith logGroupName "/aws/api-gateway/"
    && subscribe

/-- `validateHttpApiSubscription` of the source. -/
def validateHttpApiSubscription (logGroupName : String) (subscribe : Bool)
    (extendedProvider : JSVal) : Bool :=
  httpAccessLoggingIsEnabled extendedProvider
    && strStartsWith logGroupName "/aws/http-api/"
    && subscribe

/-- `validateWebsocketSubscription` of the source. -/
def validateWebsocketSubscription (logGroupName : String) (subscribe : Bool)
    (extendedProvider : JSVal) : Bool :=
  websocketAccessLoggingIsEnabled extendedProvider
    && strStartsWith logGroupName "/aws/websocket/"
    && subscribe

/-- `shouldSubscribe` of the source: not a log group, or a non-string
`LogGroupName` (an execution log group) → no; with the extension active, only
API-category log groups matching an enabled access-logging flag; otherwise a
lambda log group or an enabled API-category log group; and a lambda log group
must belong to a tracked handler via the naming transform. -/
def shouldSubscribe (resourceName : String) (resource : Resource)
    (forwarderConfigs : ForwarderConfigs) (handlers : List FunctionInfo)
    (service : ServiceModel) : Bool :=
  let extendedProvider := service.logs
  if !isLogGroup resource then false
  else
    match lgNameLit resource with
    | none => false
    | some logGroupName =>
      if forwarderConfigs.AddExtension
          && !(validateRestApiSubscription logGroupName forwarderConfigs.SubToAccessLogGroups extendedProvider
               || validateHttpApiSubscription logGroupName forwarderConfigs.SubToAccessLogGroups extendedProvider
               || validateWebsocketSubscription logGroupName forwarderConfigs.SubToAccessLogGroups extendedProvider) then
        false
      else if !(strStartsWith logGroupName "/aws/lambda/"
               || validateRestApiSubscription logGroupName forwarderConfigs.SubToAccessLogGroups extendedProvider
               || validateHttpApiSubscription logGroupName forwarderConfigs.SubToAccessLogGroups extendedProvider
               || validateWebsocketSubscription logGroupName forwarderConfigs.SubToAccessLogGroups extendedProvider) then
        false
      else if strStartsWith logGroupName "/aws/lambda/"
               && !(handlers.any (fun h => getLogGroupLogicalId h.name = resourceName)) then
        false
      else
        true

/-- `subscribeToLogGroup` of the source: the created subscription filter
resource, referencing its log group by logical id. -/
def subscribeToLogGroup (functionArn : Arn) (name : String) : Resource :=
  .subscriptionFilter functionArn "" name

/-- One iteration of the candidate loop of
`addCloudWatchForwarderSubscriptions` (the body of
`for (const [name, resource] of Object.entries(resources))`), over the
accumulated graph, warning list and call log. -/
def processLogGroup (service : ServiceModel) (aws : AwsModel) (functionArn : Arn)
    (forwarderConfigs : ForwarderConfigs) (handlers : List FunctionInfo)
    (acc : Graph × List String × List RemoteCall) (entry : String × Resource) :
    Graph × List String × List RemoteCall :=
  if shouldSubscribe entry.1 entry.2 forwarderConfigs handlers service then
    match lgNameLit entry.2 with
    | none => acc
    | some logGroupName =>
      let scopedSubName := entry.1 ++ "Subscription"
      let expectedSubName :=
        if aws.stackName ≠ "" then
          aws.stackName ++ "-" ++ scopedSubName ++ "-"
        else
          service.serviceName ++ "-" ++ aws.stage ++ "-" ++ scopedSubName ++ "-"
      let calls := acc.2.2 ++ [RemoteCall.describeSubscriptionFiltersFor logGroupName]
      if canSubscribeLogGroup aws logGroupName expectedSubName then
        (setKey acc.1 scopedSubName (subscribeToLogGroup functionArn entry.1), acc.2.1, calls)
      else
        (acc.1,
         acc.2.1 ++
           ["Could not subscribe Datadog Forwarder due to too many existing subscription filter(s) for "
             ++ logGroupName ++ "."],
         calls)
  else acc

/-- The forwarder ARN validation step at the top of
`addCloudWatchForwarderSubscriptions`: a skip warning for an intrinsic
destination, a skip warning in integration-testing mode, otherwise the
existence query (whose typed error propagates). -/
def forwarderArnCheck (aws : AwsModel) (functionArn : Arn)
    (forwarderConfigs : ForwarderConfigs) :
    Except DatadogForwarderNotFoundError (List String × List RemoteCall) :=
  match functionArn with
  | .cfObject _ _ =>
    .ok (["Skipping forwarder ARN validation because forwarder string defined with CloudFormation function."], [])
  | .str _ =>
    if forwarderConfigs.IntegrationTesting = some true then
      .ok (["Skipping forwarder ARN validation because \x27integrationTesting\x27 is set to true"], [])
    else
      match validateForwarderArn aws functionArn with
      | .ok _ => .ok ([], [RemoteCall.getFunction functionArn])
      | .error e => .error e

/-- `addCloudWatchForwarderSubscriptions` of the source: skip with a single
warning when the compiled template has no `Resources`; validate (or skip
validating) the forwarder ARN; then walk the snapshot of the resource
entries, subscribing each eligible log group that the quota enforcer
allows. -/
def addCloudWatchForwarderSubscriptions (service : ServiceModel) (aws : AwsModel)
    (functionArn : Arn) (forwarderConfigs : ForwarderConfigs)
    (handlers : List FunctionInfo) : Except DatadogForwarderNotFoundError EngineRun :=
  match service.resources with
  | none =>
    .ok ⟨none, ["No cloudformation stack available. Skipping subscribing Datadog forwarder."], []⟩
  | some resources =>
    match forwarderArnCheck aws functionArn forwarderConfigs with
    | .error e => .error e
    | .ok (errors, calls) =>
      let result :=
        resources.foldl (processLogGroup service aws functionArn forwarderConfigs handlers)
          (resources, errors, calls)
      .ok ⟨some result.1, result.2.1, result.2.2⟩

/-- `createRestExecutionLogGroupName` of the source. -/
def createRestExecutionLogGroupName (aws : AwsModel) : LGName :=
  .fnJoin "" [.lit "API-Gateway-Execution-Logs_", .ref "ApiGatewayRestApi", .lit "/", .lit aws.stage]

/-- `createWebsocketExecutionLogGroupName` of the source. -/
def createWebsocketExecutionLogGroupName (aws : AwsModel) : LGName :=
  .fnJoin "" [.lit "/aws/apigateway/", .ref "WebsocketsApi", .lit "/", .lit aws.stage]

/-- `addExecutionLogGroup` of the source: the manually created execution log
group resource. -/
def addExecutionLogGroup (logGroupName : LGName) : Resource :=
  .logGroup logGroupName

/-- `subscribeToExecutionLogGroup` of the source. -/
def subscribeToExecutionLogGroup (functionArn : Arn) (executionLogGroupKey : String) : Resource :=
  .subscriptionFilter functionArn "" executionLogGroupKey

/-- `addExecutionLogGroupsAndSubscriptions` of the source, over the resource
map (`logs` is the raw `service.provider.logs` value; the source dereferences
`compiledCloudFormationTemplate?.Resources`, modelled here for the defined
case).  When the shape guard rejects the raw value the function returns with
no effect; otherwise each enabled execution-logging category has its log
group and subscription written under its two fixed logical ids. -/
def addExecutionLogGroupsAndSubscriptions (logs : JSVal) (aws : AwsModel)
    (functionArn : Arn) (resources : Graph) : Graph :=
  if !isLogsConfig logs then resources
  else
    let afterRest :=
      if restExecutionLoggingIsEnabled logs then
        let logGroupName := createRestExecutionLogGroupName aws
        let withGroup := setKey resources REST_EXECUTION_LOG_GROUP_KEY (addExecutionLogGroup logGroupName)
        setKey withGroup REST_EXECUTION_SUBSCRIPTION_KEY
          (subscribeToExecutionLogGroup functionArn REST_EXECUTION_LOG_GROUP_KEY)
      else resources
    if websocketExecutionLoggingIsEnabled logs then
      let logGroupName := createWebsocketExecutionLogGroupName aws
      let withGroup := setKey afterRest WEBSOCKETS_EXECUTION_LOG_GROUP_KEY (addExecutionLogGroup logGroupName)
      setKey withGroup WEBSOCKETS_EXECUTION_SUBCRIPTION_KEY
        (subscribeToExecutionLogGroup functionArn WEBSOCKETS_EXECUTION_LOG_GROUP_KEY)
    else afterRest

/-! ## Theorems -/

/-- The accumulating found-flag loop of `canSubscribeLogGroup` computes
`List.any`. -/
theorem foldl_found_eq_any (p : String) (l : List SubscriptionFilterDesc) (b : Bool) :
    l.foldl
        (fun found subscription =>
          if strStartsWith subscription.filterName p then true else found)
        b
      = (b || l.any (fun subscription => strStartsWith subscription.filterName p)) := by
  induction l generalizing b with
  | nil => simp
  | cons x xs ih =>
    simp only [List.foldl_cons, List.any_cons]
    rw [ih]
    cases hx : strStartsWith x.filterName p <;> cases b <;> simp [hx]

/-- A log service reporting two subscription filters, neither of whose names
starts with `expected-`. -/
def awsTwoNonMatching : AwsModel :=
  ⟨true,
   fun _ => .ok ⟨[⟨0, "dest", "ByLogStream", "alpha", "", "group", "role"⟩,
                  ⟨1, "dest", "ByLogStream", "beta", "", "group", "role"⟩]⟩,
   "dev", ""⟩

/-- A log service reporting one subscription filter whose name does not start
with `expected-`. -/
def awsOneNonMatching : AwsModel :=
  ⟨true,
   fun _ => .ok ⟨[⟨0, "dest", "ByLogStream", "alpha", "", "group", "role"⟩]⟩,
   "dev", ""⟩

/-- C1: the quota enforcer `canSubscribeLogGroup` allows if and only if some
existing subscription filter's name starts with the expected subscription
name, or the number of existing filters is strictly below the fixed quota of
two; in particular it rejects with exactly 2 non-matching filters and allows
with 1 non-matching filter. -/
theorem canSubscribeLogGroup_characterization :
    (∀ (aws : AwsModel) (logGroupName expectedSubName : String),
        canSubscribeLogGroup aws logGroupName expectedSubName = true ↔
          ((∃ sub ∈ describeSubscriptionFilters aws logGroupName,
              strStartsWith sub.filterName expectedSubName = true) ∨
           (describeSubscriptionFilters aws logGroupName).length < 2)) ∧
    canSubscribeLogGroup awsTwoNonMatching "group" "expected-" = false ∧
    canSubscribeLogGroup awsOneNonMatching "group" "expected-" = true := by
  refine ⟨?_, by rfl, by rfl⟩
  intro aws logGroupName expectedSubName
  simp only [canSubscribeLogGroup]
  rw [foldl_found_eq_any]
  simp only [Bool.false_or, maxAllowableLogGroupSubscriptions]
  split_ifs with h
  · obtain ⟨hfound, hlen⟩ := h
    simp only [Bool.false_eq_true, false_iff]
    rintro (⟨sub, hsub, hstart⟩ | hlt)
    · have hany : (describeSubscriptionFilters aws logGroupName).any
          (fun subscription => strStartsWith subscription.filterName expectedSubName) = true :=
        List.any_eq_true.mpr ⟨sub, hsub, hstart⟩
      rw [hfound] at hany
      exact Bool.false_ne_true hany
    · omega
  · simp only [true_iff]
    by_cases hany : (describeSubscriptionFilters aws logGroupName).any
        (fun subscription => strStartsWith subscription.filterName expectedSubName) = true
    · exact Or.inl (List.any_eq_true.mp hany)
    · right
      have hfalse : (describeSubscriptionFilters aws logGroupName).any
          (fun subscription => strStartsWith subscription.filterName expectedSubName) = false :=
        Bool.eq_false_iff.mpr hany
      by_contra hge
      exact h ⟨hfalse, by omega⟩

/-- C4 counterexample: the naming transform does not map `my-function_test`
to the value the specification states — only the first character is
uppercased, so the `f` of `function` stays lowercase. -/
theorem getLogGroupLogicalId_spec_example_fails :
    getLogGroupLogicalId "my-function_test" ≠ "MyDashFunctionUnderscoretestLogGroup" := by
  decide

/-- C4 amended: the naming transform maps `my-function_test` to
`MyDashfunctionUnderscoretestLogGroup` (interior characters keep their case),
and the empty string to the empty string. -/
theorem getLogGroupLogicalId_examples :
    getLogGroupLogicalId "my-function_test" = "MyDashfunctionUnderscoretestLogGroup" ∧
    getLogGroupLogicalId "" = "" :=
  ⟨by decide, rfl⟩

/-- C6: a failing log-service query is swallowed —
`describeSubscriptionFilters` returns the empty list, no error propagates,
and the quota enforcer consequently allows. -/
theorem describeSubscriptionFilters_swallows_failure
    (aws : AwsModel) (logGroupName : String) (e : String)
    (hfail : aws.describeSubs logGroupName = .error e) :
    describeSubscriptionFilters aws logGroupName = [] ∧
    ∀ expectedSubName, canSubscribeLogGroup aws logGroupName expectedSubName = true := by
  have hempty : describeSubscriptionFilters aws logGroupName = [] := by
    unfold describeSubscriptionFilters
    rw [hfail]
  refine ⟨hempty, fun expectedSubName => ?_⟩
  simp [canSubscribeLogGroup, hempty, maxAllowableLogGroupSubscriptions]

/-- A log service whose query fails for every log group. -/
def awsFailingC6 : AwsModel :=
  ⟨true, fun _ => .error "ResourceNotFoundException", "dev", ""⟩

/-- C6 witness: the failing log service at the log group `/aws/lambda/foo`. -/
theorem describeSubscriptionFilters_swallows_failure_witness :
    describeSubscriptionFilters awsFailingC6 "/aws/lambda/foo" = [] ∧
    ∀ expectedSubName, canSubscribeLogGroup awsFailingC6 "/aws/lambda/foo" expectedSubName = true :=
  describeSubscriptionFilters_swallows_failure awsFailingC6 "/aws/lambda/foo"
    "ResourceNotFoundException" rfl

/-- The end-to-end scenario's resource graph: exactly one log group
`FooLogGroup` with literal name `/aws/lambda/foo`. -/
def fooGraph : Graph := [("FooLogGroup", .logGroup (.lit "/aws/lambda/foo"))]

/-- The end-to-end scenario's service: no provider logging configuration, and
the one-entry graph. -/
def fooService : ServiceModel := ⟨"my-service", .undefined, some fooGraph⟩

/-- The end-to-end scenario's collaborator: forwarder existence check
succeeds and the log service reports zero existing subscriptions. -/
def fooAws : AwsModel := ⟨true, fun _ => .ok ⟨[]⟩, "dev", "my-service-dev"⟩

/-- The end-to-end scenario's forwarder configuration: extension inactive,
not integration testing, subscribe to access logs, do not subscribe to
execution logs. -/
def fooForwarderConfigs : ForwarderConfigs := ⟨false, some false, true, false⟩

/-- C2: on the one-log-group graph with handler `foo`, extension inactive and
a log service reporting zero subscriptions, the engine inserts exactly the
entry `FooLogGroupSubscription` — a subscription filter with the forwarder as
destination, empty filter pattern and log group `{ Ref: FooLogGroup }` — and
returns an empty warning list. -/
theorem addCloudWatchForwarderSubscriptions_end_to_end :
    addCloudWatchForwarderSubscriptions fooService fooAws (.str "forwarder-arn")
        fooForwarderConfigs [⟨"foo"⟩] =
      .ok ⟨some [("FooLogGroup", .logGroup (.lit "/aws/lambda/foo")),
                 ("FooLogGroupSubscription",
                  .subscriptionFilter (.str "forwarder-arn") "" "FooLogGroup")],
           [],
           [.getFunction (.str "forwarder-arn"),
            .describeSubscriptionFiltersFor "/aws/lambda/foo"]⟩ := by
  rfl

/-- C9 counterexample: a defined but empty resource graph — a graph with no
entries at all — is not skipped with the "no resource graph" warning: the run
issues the forwarder existence query (a remote call) and returns zero
warnings. -/
theorem empty_graph_runs_validation :
    addCloudWatchForwarderSubscriptions ⟨"svc", .undefined, some []⟩
        ⟨true, fun _ => .ok ⟨[]⟩, "dev", ""⟩ (.str "forwarder-arn")
        ⟨false, some false, true, false⟩ [] =
      .ok ⟨some [], [], [.getFunction (.str "forwarder-arn")]⟩ := by
  rfl

/-- C9 amended: only when the compiled template's `Resources` map is absent
(undefined) does the engine record exactly one warning, perform no remote
calls and leave everything unchanged. -/
theorem no_resources_single_warning
    (service : ServiceModel) (aws : AwsModel) (functionArn : Arn)
    (forwarderConfigs : ForwarderConfigs) (handlers : List FunctionInfo)
    (hnone : service.resources = none) :
    addCloudWatchForwarderSubscriptions service aws functionArn forwarderConfigs handlers =
      .ok ⟨none, ["No cloudformation stack available. Skipping subscribing Datadog forwarder."], []⟩ := by
  unfold addCloudWatchForwarderSubscriptions
  rw [hnone]

/-- C9 witness: a service with no compiled template resources. -/
theorem no_resources_single_warning_witness :
    addCloudWatchForwarderSubscriptions ⟨"svc", .undefined, none⟩
        ⟨true, fun _ => .ok ⟨[]⟩, "dev", ""⟩ (.str "forwarder-arn")
        ⟨false, some false, true, false⟩ [] =
      .ok ⟨none, ["No cloudformation stack available. Skipping subscribing Datadog forwarder."], []⟩ :=
  no_resources_single_warning ⟨"svc", .undefined, none⟩
    ⟨true, fun _ => .ok ⟨[]⟩, "dev", ""⟩ (.str "forwarder-arn")
    ⟨false, some false, true, false⟩ [] rfl

/-- C5: with a literal string destination, integration testing not active and
a failing existence query, the engine raises `DatadogForwarderNotFoundError`
before any candidate is processed — the run produces no mutated graph at
all. -/
theorem forwarder_not_found_aborts
    (service : ServiceModel) (aws : AwsModel) (s : String)
    (forwarderConfigs : ForwarderConfigs) (handlers : List FunctionInfo) (g : Graph)
    (hres : service.resources = some g)
    (hit : forwarderConfigs.IntegrationTesting ≠ some true)
    (hfail : aws.getFunctionOk = false) :
    addCloudWatchForwarderSubscriptions service aws (.str s) forwarderConfigs handlers =
      .error ⟨"Could not perform GetFunction on " ++ s ++ "."⟩ := by
  have hcheck : forwarderArnCheck aws (.str s) forwarderConfigs =
      .error ⟨"Could not perform GetFunction on " ++ s ++ "."⟩ := by
    simp [forwarderArnCheck, hit, validateForwarderArn, hfail, arnToString]
  simp [addCloudWatchForwarderSubscriptions, hres, hcheck]

/-- C5 witness: a concrete service with a one-entry graph, a failing
existence query, and integration testing off. -/
theorem forwarder_not_found_aborts_witness :
    addCloudWatchForwarderSubscriptions ⟨"svc", .undefined, some fooGraph⟩
        ⟨false, fun _ => .ok ⟨[]⟩, "dev", ""⟩ (.str "missing-forwarder")
        ⟨false, some false, true, false⟩ [⟨"foo"⟩] =
      .error ⟨"Could not perform GetFunction on " ++ "missing-forwarder" ++ "."⟩ :=
  forwarder_not_found_aborts ⟨"svc", .undefined, some fooGraph⟩
    ⟨false, fun _ => .ok ⟨[]⟩, "dev", ""⟩ "missing-forwarder"
    ⟨false, some false, true, false⟩ [⟨"foo"⟩] fooGraph rfl (by decide) rfl

/-- C3: with the extension active and access-log subscription disabled,
`shouldSubscribe` rejects every candidate, so a successful engine run leaves
the resource graph exactly as it was — no subscription filter is created. -/
theorem extension_active_no_subscriptions
    (service : ServiceModel) (aws : AwsModel) (functionArn : Arn)
    (forwarderConfigs : ForwarderConfigs) (handlers : List FunctionInfo)
    (hext : forwarderConfigs.AddExtension = true)
    (hacc : forwarderConfigs.SubToAccessLogGroups = false) :
    (∀ resourceName resource,
        shouldSubscribe resourceName resource forwarderConfigs handlers service = false) ∧
    (∀ run,
        addCloudWatchForwarderSubscriptions service aws functionArn forwarderConfigs handlers
          = .ok run →
        run.resources = service.resources) := by
  have hshould : ∀ resourceName resource,
      shouldSubscribe resourceName resource forwarderConfigs handlers service = false := by
    intro resourceName resource
    cases resource with
    | logGroup lg =>
      cases lg with
      | lit sName =>
        simp [shouldSubscribe, isLogGroup, lgNameLit, hext, hacc,
          validateRestApiSubscription, validateHttpApiSubscription,
          validateWebsocketSubscription]
      | fnJoin sep parts => simp [shouldSubscribe, isLogGroup, lgNameLit]
    | subscriptionFilter d fp r => simp [shouldSubscribe, isLogGroup]
    | other t => simp [shouldSubscribe, isLogGroup]
  have hstep : ∀ acc entry,
      processLogGroup service aws functionArn forwarderConfigs handlers acc entry = acc := by
    intro acc entry
    unfold processLogGroup
    rw [hshould entry.1 entry.2]
    simp
  have hfold : ∀ (l : List (String × Resource)) (acc : Graph × List String × List RemoteCall),
      l.foldl (processLogGroup service aws functionArn forwarderConfigs handlers) acc = acc := by
    intro l
    induction l with
    | nil => intro acc; rfl
    | cons x xs ih =>
      intro acc
      rw [List.foldl_cons, hstep acc x]
      exact ih acc
  refine ⟨hshould, fun run hrun => ?_⟩
  rcases hres : service.resources with _ | g
  · have heq : addCloudWatchForwarderSubscriptions service aws functionArn forwarderConfigs handlers
        = .ok ⟨none, ["No cloudformation stack available. Skipping subscribing Datadog forwarder."], []⟩ := by
      unfold addCloudWatchForwarderSubscriptions
      rw [hres]
    rw [heq] at hrun
    injection hrun with h
    rw [← h]
  · cases hcheck : forwarderArnCheck aws functionArn forwarderConfigs with
    | error e =>
      have heq : addCloudWatchForwarderSubscriptions service aws functionArn forwarderConfigs handlers
          = .error e := by
        simp [addCloudWatchForwarderSubscriptions, hres, hcheck]
      rw [heq] at hrun
      cases hrun
    | ok pr =>
      obtain ⟨errors, calls⟩ := pr
      have heq : addCloudWatchForwarderSubscriptions service aws functionArn forwarderConfigs handlers
          = .ok ⟨some g, errors, calls⟩ := by
        simp [addCloudWatchForwarderSubscriptions, hres, hcheck, hfold]
      rw [heq] at hrun
      injection hrun with h
      rw [← h]

/-- C3 witness: a concrete run with extension active and access-log
subscription disabled over a graph holding a lambda log group. -/
theorem extension_active_no_subscriptions_witness :
    (∀ resourceName resource,
        shouldSubscribe resourceName resource ⟨true, some false, false, true⟩ [⟨"foo"⟩]
          ⟨"svc", .undefined, some fooGraph⟩ = false) ∧
    (∀ run,
        addCloudWatchForwarderSubscriptions ⟨"svc", .undefined, some fooGraph⟩
            ⟨true, fun _ => .ok ⟨[]⟩, "dev", ""⟩ (.str "forwarder-arn")
            ⟨true, some false, false, true⟩ [⟨"foo"⟩]
          = .ok run →
        run.resources = (⟨"svc", .undefined, some fooGraph⟩ : ServiceModel).resources) :=
  extension_active_no_subscriptions ⟨"svc", .undefined, some fooGraph⟩
    ⟨true, fun _ => .ok ⟨[]⟩, "dev", ""⟩ (.str "forwarder-arn")
    ⟨true, some false, false, true⟩ [⟨"foo"⟩] rfl rfl

/-- C10: the engine never reads `SubToExecutionLogGroups` — two runs whose
forwarder configurations differ only in that flag produce identical graph
mutations, warnings and remote calls. -/
theorem addCloudWatchForwarderSubscriptions_ignores_execution_flag
    (service : ServiceModel) (aws : AwsModel) (functionArn : Arn)
    (forwarderConfigs : ForwarderConfigs) (b : Bool) (handlers : List FunctionInfo) :
    addCloudWatchForwarderSubscriptions service aws functionArn
        { forwarderConfigs with SubToExecutionLogGroups := b } handlers =
      addCloudWatchForwarderSubscriptions service aws functionArn forwarderConfigs handlers := by
  cases forwarderConfigs
  rfl

/-- Reading a key just written reads the written value. -/
theorem getKey_setKey_same (g : Graph) (k : String) (v : Resource) :
    getKey (setKey g k v) k = some v := by
  induction g with
  | nil => simp [setKey, getKey]
  | cons p rest ih =>
    obtain ⟨k1, v1⟩ := p
    by_cases h : k1 = k
    · subst h; simp [setKey, getKey]
    · simp [setKey, getKey, h, ih]

/-- Writing one key leaves reads of a different key unchanged. -/
theorem getKey_setKey_ne (g : Graph) (k k2 : String) (v : Resource) (h : k ≠ k2) :
    getKey (setKey g k v) k2 = getKey g k2 := by
  induction g with
  | nil => simp [setKey, getKey, h]
  | cons p rest ih =>
    obtain ⟨k1, v1⟩ := p
    by_cases h1 : k1 = k
    · subst h1; simp [setKey, getKey, h]
    · simp only [setKey, if_neg h1, getKey]
      by_cases h2 : k1 = k2 <;> simp [h2, ih]

/-- Writing back the value a key already holds does not change the graph. -/
theorem setKey_self (g : Graph) (k : String) (v : Resource)
    (h : getKey g k = some v) : setKey g k v = g := by
  induction g with
  | nil => simp [getKey] at h
  | cons p rest ih =>
    obtain ⟨k1, v1⟩ := p
    by_cases h1 : k1 = k
    · subst h1
      simp [getKey] at h
      simp [setKey, h]
    · simp only [getKey, if_neg h1] at h
      simp [setKey, if_neg h1, ih h]

/-- Re-writing two distinct keys with the values they already received
collapses to the first write. -/
theorem setKey_pair_idem (g0 : Graph) (k1 k2 : String) (v1 v2 : Resource)
    (h21 : k2 ≠ k1) :
    setKey (setKey (setKey (setKey g0 k1 v1) k2 v2) k1 v1) k2 v2 =
      setKey (setKey g0 k1 v1) k2 v2 := by
  have g1 : getKey (setKey (setKey g0 k1 v1) k2 v2) k1 = some v1 := by
    rw [getKey_setKey_ne _ _ _ _ h21, getKey_setKey_same]
  rw [setKey_self _ _ _ g1, setKey_self _ _ _ (getKey_setKey_same _ _ _)]

/-- Re-writing four pairwise-distinct keys with the values they already
received collapses to the first four writes. -/
theorem setKey_four_idem (g0 : Graph) (k1 k2 k3 k4 : String)
    (v1 v2 v3 v4 : Resource)
    (h21 : k2 ≠ k1) (h31 : k3 ≠ k1) (h41 : k4 ≠ k1)
    (h32 : k3 ≠ k2) (h42 : k4 ≠ k2) (h43 : k4 ≠ k3) :
    setKey (setKey (setKey (setKey
        (setKey (setKey (setKey (setKey g0 k1 v1) k2 v2) k3 v3) k4 v4)
        k1 v1) k2 v2) k3 v3) k4 v4 =
      setKey (setKey (setKey (setKey g0 k1 v1) k2 v2) k3 v3) k4 v4 := by
  have g1 : getKey (setKey (setKey (setKey (setKey g0 k1 v1) k2 v2) k3 v3) k4 v4) k1
      = some v1 := by
    rw [getKey_setKey_ne _ _ _ _ h41, getKey_setKey_ne _ _ _ _ h31,
      getKey_setKey_ne _ _ _ _ h21, getKey_setKey_same]
  have g2 : getKey (setKey (setKey (setKey (setKey g0 k1 v1) k2 v2) k3 v3) k4 v4) k2
      = some v2 := by
    rw [getKey_setKey_ne _ _ _ _ h42, getKey_setKey_ne _ _ _ _ h32, getKey_setKey_same]
  have g3 : getKey (setKey (setKey (setKey (setKey g0 k1 v1) k2 v2) k3 v3) k4 v4) k3
      = some v3 := by
    rw [getKey_setKey_ne _ _ _ _ h43, getKey_setKey_same]
  rw [setKey_self _ _ _ g1, setKey_self _ _ _ g2, setKey_self _ _ _ g3,
    setKey_self _ _ _ (getKey_setKey_same _ _ _)]

/-- C7: the execution log group synthesizer is idempotent — a second run on
its own output overwrites the two fixed-identifier resource pairs with
byte-identical content, leaving the graph exactly as after one run. -/
theorem addExecutionLogGroupsAndSubscriptions_idempotent
    (logs : JSVal) (aws : AwsModel) (functionArn : Arn) (resources : Graph) :
    addExecutionLogGroupsAndSubscriptions logs aws functionArn
        (addExecutionLogGroupsAndSubscriptions logs aws functionArn resources) =
      addExecutionLogGroupsAndSubscriptions logs aws functionArn resources := by
  have hne1 : REST_EXECUTION_SUBSCRIPTION_KEY ≠ REST_EXECUTION_LOG_GROUP_KEY := by decide
  have hne2 : WEBSOCKETS_EXECUTION_LOG_GROUP_KEY ≠ REST_EXECUTION_LOG_GROUP_KEY := by decide
  have hne3 : WEBSOCKETS_EXECUTION_SUBCRIPTION_KEY ≠ REST_EXECUTION_LOG_GROUP_KEY := by decide
  have hne4 : WEBSOCKETS_EXECUTION_LOG_GROUP_KEY ≠ REST_EXECUTION_SUBSCRIPTION_KEY := by decide
  have hne5 : WEBSOCKETS_EXECUTION_SUBCRIPTION_KEY ≠ REST_EXECUTION_SUBSCRIPTION_KEY := by decide
  have hne6 : WEBSOCKETS_EXECUTION_SUBCRIPTION_KEY ≠ WEBSOCKETS_EXECUTION_LOG_GROUP_KEY := by decide
  by_cases hc : isLogsConfig logs
  case neg => simp [addExecutionLogGroupsAndSubscriptions, hc]
  case pos =>
    by_cases hr : restExecutionLoggingIsEnabled logs <;>
      by_cases hw : websocketExecutionLoggingIsEnabled logs <;>
      simp only [addExecutionLogGroupsAndSubscriptions, hc, hr, hw, Bool.not_true,
        Bool.not_false, Bool.false_eq_true, if_false, if_true]
    · -- rest and websocket both enabled
      exact setKey_four_idem resources _ _ _ _ _ _ _ _ hne1 hne2 hne3 hne4 hne5 hne6
    · -- rest only
      exact setKey_pair_idem resources _ _ _ _ hne1
    · -- websocket only
      exact setKey_pair_idem resources _ _ _ _ hne6

/-- C8 counterexample: a logging configuration with a wrong-typed category is
rejected by the shape guard, but no error is raised — the synthesizer returns
normally with the graph unchanged, so the rejection is a silent skip, not a
fatal `InvalidConfiguration` error. -/
theorem invalid_config_no_error :
    isLogsConfig (.obj [("restApi", .str "yes")]) = false ∧
    addExecutionLogGroupsAndSubscriptions (.obj [("restApi", .str "yes")])
        ⟨true, fun _ => .ok ⟨[]⟩, "dev", ""⟩ (.str "forwarder-arn")
        [("X", .other "AWS::Lambda::Function")] =
      [("X", .other "AWS::Lambda::Function")] :=
  ⟨rfl, rfl⟩

/-- C8 amended: a logging configuration the shape guard rejects (wrong-typed
field at any nesting level) makes the execution log group synthesizer return
the graph unchanged, with no error raised and no resolution performed. -/
theorem invalid_config_silent_skip
    (logs : JSVal) (aws : AwsModel) (functionArn : Arn) (resources : Graph)
    (hbad : isLogsConfig logs = false) :
    addExecutionLogGroupsAndSubscriptions logs aws functionArn resources = resources := by
  simp [addExecutionLogGroupsAndSubscriptions, hbad]

/-- C8 witness: a wrong-typed sub-flag (`accessLogging` a number, one nesting
level down) is rejected and the synthesizer leaves the graph unchanged. -/
theorem invalid_config_silent_skip_witness :
    addExecutionLogGroupsAndSubscriptions
        (.obj [("httpApi", .obj [("accessLogging", .num 3)])])
        ⟨true, fun _ => .ok ⟨[]⟩, "dev", ""⟩ (.str "forwarder-arn") [] = [] :=
  invalid_config_silent_skip (.obj [("httpApi", .obj [("accessLogging", .num 3)])])
    ⟨true, fun _ => .ok ⟨[]⟩, "dev", ""⟩ (.str "forwarder-arn") [] rfl

end DatadogForwarder
